import Mathlib

/-!
Verification of the Greensteel gateway / auth-service core.

The definitions below are a shallow embedding of the Python sources:
  * `src/service/auth-service/app/main.py` — session lifecycle (login,
    signup, logout, verify_session) over a relational store modelled as
    in-memory lists of rows;
  * `src/gateway/app/main.py`, `src/gateway/app/domain/discovery/model/
    service_type.py`, `service_discovery.py` — service resolution, CORS
    decisioning, header relay and outbound error mapping.

Time is modelled as `Nat` seconds; the Python builtin `hash` is modelled
as an abstract parameter `pyhash : String → Int` (its only relevant
property in the source is that it is a deterministic function of the
password string, applied as `str(hash(password))`).
-/

namespace Greensteel

/-! ### Auth-service data model (tables created in `init_database`) -/

/-- Row of the `users` table: `users(id, email UNIQUE, password_hash,
created_at, ...)`. -/
structure UserRow where
  id : Nat
  email : String
  password_hash : String
  created_at : Nat
deriving DecidableEq

/-- Row of the `sessions` table: `sessions(id PRIMARY KEY, user_id, email,
created_at, expires_at)`. -/
structure SessionRow where
  id : String
  user_id : Nat
  email : String
  created_at : Nat
  expires_at : Nat
deriving DecidableEq

/-- The relational store of the auth service. -/
structure DB where
  users : List UserRow
  sessions : List SessionRow
deriving DecidableEq

/-- A FastAPI `HTTPException(status_code, detail)`. -/
structure HTTPExc where
  status : Nat
  detail : String
deriving DecidableEq

/-- Detail string of the generic database-error response raised by the
`except Exception as db_error` clauses in `main.py`. -/
def dbErrorDetail : String := "데이터베이스 오류가 발생했습니다"

/-- Models the clause `except Exception as db_error: raise
HTTPException(status_code=500, detail="데이터베이스 오류가 발생했습니다")`
that wraps the database block of login, signup and verify_session.
FastAPI's `HTTPException` is a subclass of Python's `Exception`, so an
`HTTPException` raised inside the wrapped block (for example the 401 on a
credential mismatch) is caught by this clause as well and replaced by the
500 database error. -/
def catchAllAs500 {α : Type} (r : Except HTTPExc α) : Except HTTPExc α :=
  match r with
  | .ok v => .ok v
  | .error _ => .error ⟨500, dbErrorDetail⟩

/-- `password_hash = str(hash(request.password))` — the stored hash is the
decimal rendering of the builtin hash of the password alone (no salt, no
email). Used identically at the signup and login call sites. -/
def storedPasswordHash (pyhash : String → Int) (password : String) : String :=
  toString (pyhash password)

/-- Cookie / session lifetime: `max_age=86400` and
`expires_at = now + timedelta(hours=24)`. -/
def sessionMaxAge : Nat := 86400

/-! ### login (`POST /auth/login`) -/

/-- Observable outcome of the login endpoint: HTTP status, detail or
success message, the optional `Set-Cookie: session_id=...` value, and the
store after the call. -/
structure LoginResult where
  status : Nat
  detail : String
  setCookie : Option String
  db : DB
deriving DecidableEq

/-- The credential lookup of login:
`SELECT id, email FROM users WHERE email = $1 AND password_hash = $2`
with `$2 = str(hash(request.password))`. -/
def loginUserLookup (pyhash : String → Int) (db : DB)
    (email password : String) : Option UserRow :=
  db.users.find? fun u =>
    decide (u.email = email) &&
      decide (u.password_hash = storedPasswordHash pyhash password)

/-- Body of login's inner `try` block (the database block): look the user
up; on a miss raise `HTTPException(401, "이메일 또는 비밀번호가 올바르지
않습니다")`; on a hit insert a session row expiring 24h from now and
return the user together with the new store. -/
def loginInner (pyhash : String → Int) (db : DB)
    (email password newSessionId : String) (now : Nat) :
    Except HTTPExc (UserRow × DB) :=
  match loginUserLookup pyhash db email password with
  | none => .error ⟨401, "이메일 또는 비밀번호가 올바르지 않습니다"⟩
  | some u =>
      .ok (u, { db with
        sessions := db.sessions ++
          [⟨newSessionId, u.id, u.email, now, now + sessionMaxAge⟩] })

/-- The login endpoint. The empty-field 400 is raised before the inner
`try`, so it survives; every error raised inside the database block —
including the intended 401 — is replaced by the 500 database error by
`catchAllAs500`. On success the `session_id` cookie is set to the fresh
session id. -/
def login (pyhash : String → Int) (db : DB)
    (email password newSessionId : String) (now : Nat) : LoginResult :=
  if email = "" ∨ password = "" then
    ⟨400, "이메일과 비밀번호를 입력해주세요", none, db⟩
  else
    match catchAllAs500 (loginInner pyhash db email password newSessionId now) with
    | .error e => ⟨e.status, e.detail, none, db⟩
    | .ok (_, db') => ⟨200, "로그인이 완료되었습니다.", some newSessionId, db'⟩

/-! ### signup (`POST /auth/signup`) -/

/-- Observable outcome of the signup endpoint. -/
structure SignupResult where
  status : Nat
  detail : String
  db : DB
deriving DecidableEq

/-- The user row inserted by signup:
`INSERT INTO users (email, password_hash) VALUES ($1, str(hash(password)))`
(`id`/`created_at` are supplied by the database; here passed in). -/
def signupNewUser (pyhash : String → Int) (email password : String)
    (newId now : Nat) : UserRow :=
  ⟨newId, email, storedPasswordHash pyhash password, now⟩

/-- Body of signup's inner `try` block: check
`SELECT id FROM users WHERE email = $1`; on a hit raise
`HTTPException(400, "이미 존재하는 이메일입니다")`; otherwise insert the
new user row. (The `except asyncpg.UniqueViolationError` clause only fires
on a concurrent insert racing past this check, which does not arise in
this sequential model; the 400 `HTTPException` raised here is not a
`UniqueViolationError`, so it falls through to the generic
`except Exception` clause.) -/
def signupInner (pyhash : String → Int) (db : DB)
    (email password : String) (newId now : Nat) :
    Except HTTPExc (UserRow × DB) :=
  match db.users.find? (fun u => decide (u.email = email)) with
  | some _ => .error ⟨400, "이미 존재하는 이메일입니다"⟩
  | none =>
      let u := signupNewUser pyhash email password newId now
      .ok (u, { db with users := db.users ++ [u] })

/-- The signup endpoint, with the same exception structure as login. -/
def signup (pyhash : String → Int) (db : DB)
    (email password : String) (newId now : Nat) : SignupResult :=
  if email = "" ∨ password = "" then
    ⟨400, "이메일과 비밀번호를 입력해주세요", db⟩
  else
    match catchAllAs500 (signupInner pyhash db email password newId now) with
    | .error e => ⟨e.status, e.detail, db⟩
    | .ok (_, db') => ⟨200, "회원가입이 완료되었습니다.", db'⟩

/-! ### logout (`POST /auth/logout`) -/

/-- Success message of the logout endpoint. -/
def logoutMessage : String := "로그아웃이 완료되었습니다."

/-- Observable outcome of the logout endpoint: logout always answers 200
with `{"status": "success", ...}` and always issues
`response.delete_cookie("session_id")`. -/
structure LogoutResult where
  status : Nat
  message : String
  cookieDeleted : Bool
  db : DB
deriving DecidableEq

/-- The logout endpoint: if a `session_id` cookie is presented, run
`DELETE FROM sessions WHERE id = $1` (a database failure there is only
logged, never raised); in every case delete the cookie and answer 200. -/
def logout (db : DB) (sessionId : Option String) : LogoutResult :=
  let db' : DB :=
    match sessionId with
    | none => db
    | some sid =>
        { db with sessions := db.sessions.filter fun s => ! decide (s.id = sid) }
  ⟨200, logoutMessage, true, db'⟩

/-! ### verify_session (`GET /auth/verify`) -/

/-- Observable outcome of the verify endpoint. On success the body is
`{"status": "success", "user_data": {user_id, email, created_at}}`;
modelled by `detail = "success"` plus the user fields. -/
structure VerifyResult where
  status : Nat
  detail : String
  userId : Option Nat
  userEmail : Option String
deriving DecidableEq

/-- The session lookup of verify:
`SELECT ... FROM sessions s JOIN users u ON s.user_id = u.id
WHERE s.id = $1 AND s.expires_at > NOW()`. -/
def verifyLookup (db : DB) (sid : String) (now : Nat) :
    Option (SessionRow × UserRow) :=
  match db.sessions.find?
      (fun s => decide (s.id = sid) && decide (now < s.expires_at)) with
  | none => none
  | some s =>
      match db.users.find? (fun u => decide (u.id = s.user_id)) with
      | none => none
      | some u => some (s, u)

/-- Body of verify's inner `try` block: on an empty lookup raise
`HTTPException(401, "유효하지 않은 세션입니다")`. -/
def verifyInner (db : DB) (sid : String) (now : Nat) :
    Except HTTPExc (SessionRow × UserRow) :=
  match verifyLookup db sid now with
  | none => .error ⟨401, "유효하지 않은 세션입니다"⟩
  | some su => .ok su

/-- The verify endpoint (`verify_session`). The missing-cookie 401 is
raised before the inner `try`, so it survives; the invalid-session 401 is
raised inside the database block and is replaced by the 500 database
error by `catchAllAs500`. -/
def verify_session (db : DB) (cookie : Option String) (now : Nat) :
    VerifyResult :=
  match cookie with
  | none => ⟨401, "세션이 없습니다", none, none⟩
  | some sid =>
      match catchAllAs500 (verifyInner db sid now) with
      | .error e => ⟨e.status, e.detail, none, none⟩
      | .ok (s, u) => ⟨200, "success", some s.user_id, some u.email⟩

/-! ### Gateway: service enumeration and resolution
(`src/gateway/app/domain/discovery/model/service_type.py`,
`service_discovery.py`, and the routing of `proxy_post` in
`src/gateway/app/main.py`) -/

/-- The closed service enumeration of the generic proxy
(`class ServiceType(str, Enum)`). -/
inductive ServiceType where
  | CBAM
  | CHATBOT
  | LCA
  | REPORT
  | AUTH
deriving DecidableEq

/-- The string value of each enum member. -/
def ServiceType.value : ServiceType → String
  | .CBAM => "cbam"
  | .CHATBOT => "chatbot"
  | .LCA => "lca"
  | .REPORT => "report"
  | .AUTH => "auth"

/-- The set of valid service tokens, as member values of `ServiceType`. -/
def serviceTypeStrings : List String := ["cbam", "chatbot", "lca", "report", "auth"]

/-- FastAPI's conversion of the `{service}` path segment into the
`ServiceType` enum: the token must equal one of the member values,
otherwise path validation fails before the handler runs. -/
def parseService (s : String) : Option ServiceType :=
  if s = "cbam" then some .CBAM
  else if s = "chatbot" then some .CHATBOT
  else if s = "lca" then some .LCA
  else if s = "report" then some .REPORT
  else if s = "auth" then some .AUTH
  else none

/-- `url.rstrip('/')` — drop every trailing slash. -/
def rstripSlash (s : String) : String :=
  ⟨(s.data.reverse.dropWhile (fun c => decide (c = '/'))).reverse⟩

/-- The static default service table of `ServiceDiscovery.__init__`
(second argument of each `os.getenv`). -/
def defaultBaseUrl : ServiceType → String
  | .CBAM => "http://cbam-service:8082"
  | .CHATBOT => "http://chatbot-service:8083"
  | .LCA => "http://lca-service:8084"
  | .REPORT => "http://report-service:8085"
  | .AUTH => "http://auth-service:8081"

/-- Base URL resolution: environment override if set, else the static
default, with trailing slashes stripped at resolution time. -/
def baseUrl (env : ServiceType → Option String) (st : ServiceType) : String :=
  rstripSlash ((env st).getD (defaultBaseUrl st))

/-- The resolution step of `ServiceDiscovery.request`: the guard
`if not base_url: raise ValueError(...)` runs before the
`httpx.AsyncClient` block, so a failed resolution never reaches the
network; otherwise the outbound URL is `f"{base_url}/{path}"`. -/
def serviceDiscoveryUrl (env : ServiceType → Option String)
    (st : ServiceType) (path : String) : Except String String :=
  let b := baseUrl env st
  if b = "" then .error "Unknown service type"
  else .ok (b ++ "/" ++ path)

/-- Routing outcome of `proxy_post` for a `{service}/{path}` request.
`rejected` carries the HTTP status answered without contacting any
backend; the `forwarded*` constructors carry the outbound URL of the one
backend call made. -/
inductive DispatchOutcome where
  | rejected (status : Nat)
  | forwardedAuth (url : String)
  | forwarded (service : ServiceType) (url : String)
deriving DecidableEq

/-- The dispatch of `POST /api/v1/{service}/{path}`: an unknown token
fails FastAPI's enum path validation (422) before the handler; `auth` is
special-cased to `AUTH_SERVICE_URL + "/auth/" + path`; every other
service goes through `ServiceDiscovery` to `base + "/" + path`, whose
`ValueError` would surface as the handler's generic 500 without a
network call. -/
def gatewayDispatch (env : ServiceType → Option String)
    (service path : String) : DispatchOutcome :=
  match parseService service with
  | none => .rejected 422
  | some .AUTH =>
      .forwardedAuth (rstripSlash ((env .AUTH).getD "http://auth-service:8081")
        ++ "/auth/" ++ path)
  | some st =>
      match serviceDiscoveryUrl env st path with
      | .error _ => .rejected 500
      | .ok url => .forwarded st url

/-! ### Gateway: CORS origin policy (`src/gateway/app/main.py`) -/

/-- Default of `FRONTEND_ORIGIN = os.getenv("FRONTEND_ORIGIN",
"https://www.minyoung.cloud")`. -/
def defaultFrontendOrigin : String := "https://www.minyoung.cloud"

/-- The `ALLOWED_ORIGINS` list (its last entry is the environment-seeded
`FRONTEND_ORIGIN`). -/
def ALLOWED_ORIGINS (frontendOrigin : String) : List String :=
  ["http://localhost:3000",
   "http://127.0.0.1:3000",
   "http://frontend:3000",
   "https://www.minyoung.cloud",
   "https://minyoung.cloud",
   "http://www.minyoung.cloud",
   "http://minyoung.cloud",
   "https://greensteel.vercel.app",
   frontendOrigin]

/-- Character class `[a-z0-9-]` of `ALLOW_ORIGIN_REGEX`. -/
def vercelChar (c : Char) : Bool :=
  (decide ('a' ≤ c) && decide (c ≤ 'z')) ||
    (decide ('0' ≤ c) && decide (c ≤ '9')) ||
    decide (c = '-')

/-- A string of the shape `https://[a-z0-9-]+\.vercel\.app` exactly. -/
def vercelCore (s : String) : Bool :=
  let cs := s.data
  let pre := "https://".data
  let suf := ".vercel.app".data
  pre.isPrefixOf cs &&
    (let rest := cs.drop pre.length
     decide (suf.length < rest.length) &&
       decide (rest.drop (rest.length - suf.length) = suf) &&
       (rest.take (rest.length - suf.length)).all vercelChar)

/-- `re.match(ALLOW_ORIGIN_REGEX, origin)` with
`ALLOW_ORIGIN_REGEX = r"^https:\/\/[a-z0-9-]+\.vercel\.app$"`. Python's
`$` also matches just before one trailing newline, hence the second
disjunct. -/
def vercelRegexMatch (s : String) : Bool :=
  vercelCore s ||
    (decide (s.data.getLast? = some '\n') && vercelCore ⟨s.data.dropLast⟩)

/-- The origin check used both by `proxy_options` and by the auth branch
of `proxy_post`: `origin in ALLOWED_ORIGINS or
re.match(ALLOW_ORIGIN_REGEX, origin)`. -/
def originAllowed (frontendOrigin origin : String) : Bool :=
  decide (origin ∈ ALLOWED_ORIGINS frontendOrigin) || vercelRegexMatch origin

/-- Outcome of the preflight handler: status plus the
`Access-Control-Allow-Origin` header, if one is emitted. -/
structure PreflightReply where
  status : Nat
  allowOrigin : Option String
deriving DecidableEq

/-- The preflight handler `proxy_options`: the effective origin is
`request.headers.get('Origin', FRONTEND_ORIGIN)`; a disallowed origin is
answered 403 with no CORS headers; an allowed one is answered 200 echoing
the literal origin. -/
def proxy_options (frontendOrigin : String) (originHeader : Option String) :
    PreflightReply :=
  let origin := originHeader.getD frontendOrigin
  if originAllowed frontendOrigin origin then ⟨200, some origin⟩
  else ⟨403, none⟩

/-- The `Access-Control-Allow-Origin` value set by the auth branch of
`proxy_post` on relayed responses: the literal origin when present and
allowed, else the fixed default `"https://www.minyoung.cloud"`. -/
def proxyPostAllowOrigin (frontendOrigin : String)
    (originHeader : Option String) : String :=
  match originHeader with
  | some o =>
      if originAllowed frontendOrigin o then o else "https://www.minyoung.cloud"
  | none => "https://www.minyoung.cloud"

/-! ### Gateway: header relay (`proxy_post` in `src/gateway/app/main.py`)

Header maps are association lists of (key, value); httpx normalizes
response header keys to lowercase, and Python `dict` assignment replaces
the value of an existing key in place or appends a new key at the end. -/

/-- `d[k]` / `d.get(k)` on a header dict: first entry with exactly key
`k`. -/
def getHeader (hs : List (String × String)) (k : String) : Option String :=
  (hs.find? fun p => decide (p.1 = k)).map fun p => p.2

/-- `d[k] = v` on a header dict: replace in place when the key is
present, append otherwise. -/
def setHeader (hs : List (String × String)) (k v : String) :
    List (String × String) :=
  if hs.any (fun p => decide (p.1 = k)) then
    hs.map fun p => if p.1 = k then (k, v) else p
  else
    hs ++ [(k, v)]

/-- The Set-Cookie passthrough of the generic branch of `proxy_post`:
`out = ResponseFactory.create_response(resp)` (whose headers are the
abstract `outHeaders` here) followed by
`if "set-cookie" in resp.headers: out.headers["set-cookie"] =
resp.headers["set-cookie"]`. -/
def relayGeneric (outHeaders respHeaders : List (String × String)) :
    List (String × String) :=
  match getHeader respHeaders "set-cookie" with
  | some v => setHeader outHeaders "set-cookie" v
  | none => outHeaders

/-- The auth branch of `proxy_post` relays
`response_headers = dict(response.headers)` and then overlays the six
gateway CORS headers; the Set-Cookie entry itself is never touched. -/
def relayAuthHeaders (frontendOrigin : String) (originHeader : Option String)
    (respHeaders : List (String × String)) : List (String × String) :=
  let h := setHeader respHeaders "Access-Control-Allow-Origin"
    (proxyPostAllowOrigin frontendOrigin originHeader)
  let h := setHeader h "Access-Control-Allow-Credentials" "true"
  let h := setHeader h "Access-Control-Allow-Methods" "GET, POST, PUT, DELETE, OPTIONS"
  let h := setHeader h "Access-Control-Allow-Headers" "Content-Type, Authorization, X-Requested-With"
  let h := setHeader h "Access-Control-Expose-Headers" "Set-Cookie"
  setHeader h "Access-Control-Max-Age" "86400"

/-! ### Gateway: outbound call outcome mapping (`proxy_post`) -/

/-- Outcome of the single outbound backend call, following the httpx
exception classes caught by the source. -/
inductive Outbound where
  | ok (status : Nat) (body : String)
  | timeout (msg : String)
  | connectError (msg : String)
  | otherError (msg : String)
deriving DecidableEq

/-- What `proxy_post` returns to the caller: either the backend response
relayed through, or a structured `JSONResponse({"detail": ...})` error
body. -/
inductive ProxyReply where
  | passthrough (status : Nat) (body : String)
  | jsonError (status : Nat) (detail : String)
deriving DecidableEq

/-- HTTP status of a reply. -/
def ProxyReply.statusCode : ProxyReply → Nat
  | .passthrough s _ => s
  | .jsonError s _ => s

/-- Error mapping of the auth branch of `proxy_post`
(`except httpx.ConnectError` → 503, `except httpx.TimeoutException` →
504, `except Exception` → 500, each a JSON detail body). -/
def authBranchReply : Outbound → ProxyReply
  | .ok st b => .passthrough st b
  | .connectError m => .jsonError 503 ("Auth Service 연결 실패: " ++ m)
  | .timeout m => .jsonError 504 ("Auth Service 요청 타임아웃: " ++ m)
  | .otherError m => .jsonError 500 ("Auth Service 요청 실패: " ++ m)

/-- Error mapping of the generic branch of `proxy_post`:
`ServiceDiscovery.request` re-raises the httpx exceptions unchanged, and
the handler only distinguishes `except HTTPException` (not raised by the
outbound call) from `except Exception` → 500 `"Gateway error: ..."`, so a
timeout or a connection failure on a non-auth service is answered 500. -/
def genericBranchReply : Outbound → ProxyReply
  | .ok st b => .passthrough st b
  | .connectError m => .jsonError 500 ("Gateway error: " ++ m)
  | .timeout m => .jsonError 500 ("Gateway error: " ++ m)
  | .otherError m => .jsonError 500 ("Gateway error: " ++ m)

/-- `proxy_post`'s reply as a function of the target service and the
outbound outcome (`if service == ServiceType.AUTH:` picks the auth
branch). -/
def proxyPostReply (st : ServiceType) (o : Outbound) : ProxyReply :=
  if st = ServiceType.AUTH then authBranchReply o else genericBranchReply o

/-- `timeout=30.0` on the auth-branch `client.request` call. -/
def authBranchTimeoutSeconds : Nat := 30

/-- `timeout=30.0` on the `ServiceDiscovery.request` call. -/
def serviceDiscoveryTimeoutSeconds : Nat := 30

/-! ### Helper lemmas -/

/-- `parseService` succeeds exactly on the member values of
`ServiceType`. -/
theorem parseService_isSome (s : String) :
    (parseService s).isSome = decide (s ∈ serviceTypeStrings) := by
  by_cases h1 : s = "cbam"
  · subst h1; decide
  · by_cases h2 : s = "chatbot"
    · subst h2; decide
    · by_cases h3 : s = "lca"
      · subst h3; decide
      · by_cases h4 : s = "report"
        · subst h4; decide
        · by_cases h5 : s = "auth"
          · subst h5; decide
          · simp [parseService, serviceTypeStrings, h1, h2, h3, h4, h5]

/-- An unknown token parses to `none`. -/
theorem parseService_eq_none {s : String} (h : s ∉ serviceTypeStrings) :
    parseService s = none := by
  have hb := parseService_isSome s
  rw [decide_eq_false h] at hb
  cases hq : parseService s with
  | none => rfl
  | some st => rw [hq] at hb; simp at hb

/-- Updating key `k` leaves the lookup of any other key unchanged
(replace-in-place case). -/
theorem find?_map_update_ne (t : List (String × String)) (k q v : String)
    (hne : ¬ k = q) :
    (t.map fun p => if p.1 = k then (k, v) else p).find?
        (fun p => decide (p.1 = q))
      = t.find? fun p => decide (p.1 = q) := by
  induction t with
  | nil => rfl
  | cons p t ih =>
    by_cases hp : p.1 = k
    · have hq : ¬ p.1 = q := by rw [hp]; exact hne
      simp only [List.map_cons, List.find?, hp, if_pos, decide_eq_false hne,
        decide_eq_false hq]
      exact ih
    · simp only [List.map_cons, List.find?, if_neg hp]
      by_cases hq : p.1 = q
      · simp [hq]
      · simp only [decide_eq_false hq]
        exact ih

/-- Updating key `k` makes the lookup of `k` return the new value
(replace-in-place case). -/
theorem find?_map_update_self (t : List (String × String)) (k v : String)
    (h : t.any (fun p => decide (p.1 = k)) = true) :
    (t.map fun p => if p.1 = k then (k, v) else p).find?
        (fun p => decide (p.1 = k))
      = some (k, v) := by
  induction t with
  | nil => simp at h
  | cons p t ih =>
    by_cases hp : p.1 = k
    · simp [List.find?, hp]
    · have ht : t.any (fun p => decide (p.1 = k)) = true := by
        simpa [List.any_cons, hp] using h
      simp only [List.map_cons, List.find?, if_neg hp, decide_eq_false hp]
      exact ih ht

/-- `setHeader` sets the requested key. -/
theorem getHeader_setHeader_self (hs : List (String × String)) (k v : String) :
    getHeader (setHeader hs k v) k = some v := by
  unfold setHeader getHeader
  by_cases h : hs.any (fun p => decide (p.1 = k)) = true
  · rw [if_pos h, find?_map_update_self hs k v h]
    rfl
  · rw [if_neg h]
    have hnone : hs.find? (fun p => decide (p.1 = k)) = none := by
      rw [List.find?_eq_none]
      intro p hp hdec
      exact h (List.any_eq_true.mpr ⟨p, hp, hdec⟩)
    induction hs with
    | nil => simp [List.find?]
    | cons p t ih =>
      have hph : ¬ p.1 = k := by
        intro hpk
        rw [List.find?] at hnone
        simp [hpk] at hnone
      have htn : t.find? (fun p => decide (p.1 = k)) = none := by
        rw [List.find?] at hnone
        simpa [decide_eq_false hph] using hnone
      have hta : ¬ t.any (fun p => decide (p.1 = k)) = true := by
        intro hta
        rcases List.any_eq_true.mp hta with ⟨x, hx, hdx⟩
        have := List.find?_eq_none.mp htn x hx
        exact this hdx
      simp only [List.cons_append, List.find?, decide_eq_false hph]
      exact ih hta htn

/-- `setHeader` on one key leaves the lookup of another key unchanged. -/
theorem getHeader_setHeader_ne (hs : List (String × String)) (k q v : String)
    (hne : ¬ k = q) :
    getHeader (setHeader hs k v) q = getHeader hs q := by
  unfold setHeader getHeader
  by_cases h : hs.any (fun p => decide (p.1 = k)) = true
  · rw [if_pos h, find?_map_update_ne hs k q v hne]
  · rw [if_neg h]
    induction hs with
    | nil => simp [List.find?, decide_eq_false hne]
    | cons p t ih =>
      have hta : ¬ t.any (fun p => decide (p.1 = k)) = true := by
        intro hta
        exact h (by simp [List.any_cons, hta])
      by_cases hq : p.1 = q
      · simp [List.find?, hq]
      · simp only [List.cons_append, List.find?, decide_eq_false hq]
        exact ih hta

/-! ### Concrete fixtures for the claim theorems -/

/-- A concrete stand-in for the Python builtin `hash`. -/
def pyhash0 : String → Int := fun _ => 0

/-- A store holding one user whose stored hash does not match
`str(pyhash0(...))`, so no login credential matches. -/
def dbOneUser : DB := ⟨[⟨1, "a@b.com", "777", 0⟩], []⟩

/-- A store holding one user, one live session (expires at 100) and one
expired session (expires at 5), observed at time 10. -/
def dbVerify : DB :=
  ⟨[⟨1, "a@b.com", "0", 0⟩],
   [⟨"sid-live", 1, "a@b.com", 0, 100⟩, ⟨"sid-expired", 1, "a@b.com", 0, 5⟩]⟩

/-! ### Claim theorems -/

/-- C1: for a login request whose email/password pair matches no stored
credential the claim expects a 401 `InvalidCredentials`; the code indeed
sets no cookie and creates no session row, but the 401 `HTTPException`
raised on the mismatch is caught by the inner `except Exception` clause
(FastAPI's `HTTPException` subclasses `Exception`) and replaced by a 500
database error, so the caller sees 500, not 401. Evaluated at the failing
input `POST /auth/login {"email": "a@b.com", "password": "x"}` against a
store with no matching credential. -/
theorem login_unmatched_credential_evaluation :
    login pyhash0 dbOneUser "a@b.com" "x" "sid1" 0
        = ⟨500, dbErrorDetail, none, dbOneUser⟩ ∧
    (login pyhash0 dbOneUser "a@b.com" "x" "sid1" 0).setCookie = none ∧
    (login pyhash0 dbOneUser "a@b.com" "x" "sid1" 0).db.sessions = [] := by
  decide

/-- C2: a second signup with an already-registered email does not mutate
the store (the users table keeps exactly one row for that email), but the
400 `DuplicateEmail` `HTTPException` raised by the duplicate check is
caught by the inner `except Exception` clause and replaced by a 500
database error, so the caller sees 500, not 400. -/
theorem signup_duplicate_email_evaluation :
    (signup pyhash0 ⟨[], []⟩ "a@b.com" "pw" 1 0).status = 200 ∧
    signup pyhash0 (signup pyhash0 ⟨[], []⟩ "a@b.com" "pw" 1 0).db
        "a@b.com" "pw2" 2 5
      = ⟨500, dbErrorDetail, (signup pyhash0 ⟨[], []⟩ "a@b.com" "pw" 1 0).db⟩ ∧
    ((signup pyhash0 ⟨[], []⟩ "a@b.com" "pw" 1 0).db.users.filter
        (fun u => decide (u.email = "a@b.com"))).length = 1 := by
  decide

/-- C3: a verify request with no `session_id` cookie fails 401
`NoSession` as claimed (that exception is raised before the inner `try`);
but for an unknown session id, and for a session whose `expires_at` is in
the past while its row is still present, the 401 `InvalidSession`
`HTTPException` is caught by the inner `except Exception` clause and
replaced by a 500 database error, so the caller sees 500, not 401. A live
session still verifies with 200. -/
theorem verify_session_evaluation :
    verify_session dbVerify none 10 = ⟨401, "세션이 없습니다", none, none⟩ ∧
    verify_session dbVerify (some "sid-unknown") 10
      = ⟨500, dbErrorDetail, none, none⟩ ∧
    verify_session dbVerify (some "sid-expired") 10
      = ⟨500, dbErrorDetail, none, none⟩ ∧
    (dbVerify.sessions.any fun s => decide (s.id = "sid-expired")) = true ∧
    verify_session dbVerify (some "sid-live") 10
      = ⟨200, "success", some 1, some "a@b.com"⟩ := by
  decide

/-- C9: logout is idempotent — with no cookie, or with a session id
absent from the store, it still answers 200 and clears the cookie; and a
second logout with the same (now absent) session id produces exactly the
same observable result, store included. -/
theorem logout_idempotent (db : DB) (sid : String) :
    logout db none = ⟨200, logoutMessage, true, db⟩ ∧
    (logout db (some sid)).status = 200 ∧
    (logout db (some sid)).message = logoutMessage ∧
    (logout db (some sid)).cookieDeleted = true ∧
    logout (logout db (some sid)).db (some sid) = logout db (some sid) := by
  refine ⟨rfl, rfl, rfl, rfl, ?_⟩
  simp [logout, List.filter_filter]

/-- C10: the stored password hash is `str(hash(password))` — a
deterministic, unsalted function of the password alone, identical across
signups with different emails; and login verifies a credential by
recomputing exactly the same function and comparing for equality, so a
freshly signed-up credential always logs in. -/
theorem password_hash_unsalted_and_recomputed
    (pyhash : String → Int) (e1 e2 pw sid : String) (i1 i2 t1 t2 now : Nat) :
    (signupNewUser pyhash e1 pw i1 t1).password_hash
        = (signupNewUser pyhash e2 pw i2 t2).password_hash ∧
    (signupNewUser pyhash e1 pw i1 t1).password_hash
        = storedPasswordHash pyhash pw ∧
    (¬ e1 = "" → ¬ pw = "" →
      (login pyhash (signup pyhash ⟨[], []⟩ e1 pw i1 t1).db e1 pw sid now).status
          = 200 ∧
      (login pyhash (signup pyhash ⟨[], []⟩ e1 pw i1 t1).db e1 pw sid now).setCookie
          = some sid) := by
  refine ⟨rfl, rfl, ?_⟩
  intro he hp
  have hsg : (signup pyhash ⟨[], []⟩ e1 pw i1 t1).db
      = ⟨[signupNewUser pyhash e1 pw i1 t1], []⟩ := by
    simp [signup, he, hp, catchAllAs500, signupInner, List.find?]
  rw [hsg]
  simp [login, he, hp, catchAllAs500, loginInner, loginUserLookup,
    List.find?, signupNewUser]

/-- Witness for C10 at a concrete hash function, emails, password and
times. -/
theorem password_hash_unsalted_and_recomputed_witness :
    (¬ "a@b.com" = "") ∧ (¬ "x" = "") ∧
    (signupNewUser pyhash0 "a@b.com" "x" 1 0).password_hash
        = (signupNewUser pyhash0 "b@c.org" "x" 2 9).password_hash ∧
    (login pyhash0 (signup pyhash0 ⟨[], []⟩ "a@b.com" "x" 1 0).db
        "a@b.com" "x" "sid7" 3).status = 200 :=
  ⟨by decide, by decide,
   (password_hash_unsalted_and_recomputed pyhash0 "a@b.com" "b@c.org" "x"
      "sid7" 1 2 0 9 3).1,
   ((password_hash_unsalted_and_recomputed pyhash0 "a@b.com" "b@c.org" "x"
      "sid7" 1 2 0 9 3).2.2 (by decide) (by decide)).1⟩

/-- C4 counterexample: `"user"` is not a member of the generic proxy's
service enumeration (`ServiceType` has only cbam, chatbot, lca, report,
auth), so a POST to `/api/v1/user/health` fails path validation and is
never forwarded to any backend. -/
theorem user_service_not_in_enumeration :
    decide ("user" ∈ serviceTypeStrings) = false ∧
    parseService "user" = none ∧
    gatewayDispatch (fun _ => none) "user" "health" = .rejected 422 := by
  decide

/-- C4 (amended): the generic proxy's service enumeration is exactly
{cbam, chatbot, lca, report, auth} — it does not contain `user`, so
`/api/v1/user/health` is rejected before dispatch; a request for an
enumerated service such as cbam is forwarded to that backend's path and a
backend 200 body is passed through unchanged. -/
theorem generic_proxy_service_enumeration (b : String) :
    (∀ s : String, (parseService s).isSome = decide (s ∈ serviceTypeStrings)) ∧
    serviceTypeStrings = ["cbam", "chatbot", "lca", "report", "auth"] ∧
    parseService "user" = none ∧
    gatewayDispatch (fun _ => none) "user" "health" = .rejected 422 ∧
    gatewayDispatch (fun _ => none) "cbam" "health"
      = .forwarded .CBAM "http://cbam-service:8082/health" ∧
    proxyPostReply .CBAM (.ok 200 b) = .passthrough 200 b :=
  ⟨parseService_isSome, rfl, by decide, by decide, by decide, rfl⟩

/-- C5: an Origin is allowed exactly when it equals an entry of
`ALLOWED_ORIGINS` or matches the Vercel-preview regex; an allowed origin
is echoed literally (never `"*"`); a disallowed origin is answered 403
with no CORS header by the preflight handler, and the relay substitutes
the fixed default `https://www.minyoung.cloud` — the disallowed origin is
never reflected back. -/
theorem cors_origin_policy (o : String) :
    (originAllowed defaultFrontendOrigin o
        = (decide (o ∈ ALLOWED_ORIGINS defaultFrontendOrigin)
            || vercelRegexMatch o)) ∧
    (originAllowed defaultFrontendOrigin o = true →
      proxy_options defaultFrontendOrigin (some o) = ⟨200, some o⟩ ∧
      proxyPostAllowOrigin defaultFrontendOrigin (some o) = o ∧
      ¬ o = "*") ∧
    (originAllowed defaultFrontendOrigin o = false →
      proxy_options defaultFrontendOrigin (some o) = ⟨403, none⟩ ∧
      proxyPostAllowOrigin defaultFrontendOrigin (some o)
          = "https://www.minyoung.cloud" ∧
      ¬ "https://www.minyoung.cloud" = o) := by
  refine ⟨rfl, ?_, ?_⟩
  · intro h
    refine ⟨?_, ?_, ?_⟩
    · simp [proxy_options, h]
    · simp [proxyPostAllowOrigin, h]
    · intro ho
      subst ho
      rw [show originAllowed defaultFrontendOrigin "*" = false from by decide] at h
      simp at h
  · intro h
    refine ⟨?_, ?_, ?_⟩
    · simp [proxy_options, h]
    · simp [proxyPostAllowOrigin, h]
    · intro ho
      rw [← ho] at h
      rw [show originAllowed defaultFrontendOrigin "https://www.minyoung.cloud"
            = true from by decide] at h
      simp at h

/-- Witness for C5, at a disallowed origin and at an allowed Vercel
preview origin. -/
theorem cors_origin_policy_witness :
    originAllowed defaultFrontendOrigin "https://disallowed.example" = false ∧
    (proxy_options defaultFrontendOrigin (some "https://disallowed.example")
        = ⟨403, none⟩ ∧
      proxyPostAllowOrigin defaultFrontendOrigin (some "https://disallowed.example")
          = "https://www.minyoung.cloud" ∧
      ¬ "https://www.minyoung.cloud" = "https://disallowed.example") ∧
    originAllowed defaultFrontendOrigin "https://preview-1.vercel.app" = true ∧
    (proxy_options defaultFrontendOrigin (some "https://preview-1.vercel.app")
        = ⟨200, some "https://preview-1.vercel.app"⟩ ∧
      proxyPostAllowOrigin defaultFrontendOrigin (some "https://preview-1.vercel.app")
          = "https://preview-1.vercel.app" ∧
      ¬ "https://preview-1.vercel.app" = "*") :=
  ⟨by decide,
   (cors_origin_policy "https://disallowed.example").2.2 (by decide),
   by decide,
   (cors_origin_policy "https://preview-1.vercel.app").2.1 (by decide)⟩

/-- C6: whenever the backend response carries a Set-Cookie header, the
relayed response carries the byte-identical value, through both relay
paths of `proxy_post` (the generic explicit passthrough and the auth
branch's header-dict relay with CORS overlay). -/
theorem set_cookie_passthrough (frontendOrigin : String)
    (originHeader : Option String)
    (outHeaders respHeaders : List (String × String)) (v : String)
    (h : getHeader respHeaders "set-cookie" = some v) :
    getHeader (relayGeneric outHeaders respHeaders) "set-cookie" = some v ∧
    getHeader (relayAuthHeaders frontendOrigin originHeader respHeaders)
        "set-cookie" = some v := by
  constructor
  · unfold relayGeneric
    rw [h]
    exact getHeader_setHeader_self outHeaders "set-cookie" v
  · unfold relayAuthHeaders
    rw [getHeader_setHeader_ne _ _ _ _ (by decide),
        getHeader_setHeader_ne _ _ _ _ (by decide),
        getHeader_setHeader_ne _ _ _ _ (by decide),
        getHeader_setHeader_ne _ _ _ _ (by decide),
        getHeader_setHeader_ne _ _ _ _ (by decide),
        getHeader_setHeader_ne _ _ _ _ (by decide)]
    exact h

/-- A sample backend response header map carrying a Set-Cookie value with
its attribute ordering and HttpOnly/Secure/SameSite flags. -/
def sampleRespHeaders : List (String × String) :=
  [("content-type", "application/json"),
   ("set-cookie",
    "session_id=abc123; HttpOnly; Max-Age=86400; Path=/; SameSite=lax; Secure")]

/-- Witness for C6 on a concrete response. -/
theorem set_cookie_passthrough_witness :
    getHeader sampleRespHeaders "set-cookie"
      = some "session_id=abc123; HttpOnly; Max-Age=86400; Path=/; SameSite=lax; Secure" ∧
    getHeader (relayGeneric [("x-upstream", "1")] sampleRespHeaders) "set-cookie"
      = some "session_id=abc123; HttpOnly; Max-Age=86400; Path=/; SameSite=lax; Secure" ∧
    getHeader (relayAuthHeaders defaultFrontendOrigin (some "http://localhost:3000")
        sampleRespHeaders) "set-cookie"
      = some "session_id=abc123; HttpOnly; Max-Age=86400; Path=/; SameSite=lax; Secure" :=
  ⟨by decide,
   (set_cookie_passthrough defaultFrontendOrigin (some "http://localhost:3000")
      [("x-upstream", "1")] sampleRespHeaders
      "session_id=abc123; HttpOnly; Max-Age=86400; Path=/; SameSite=lax; Secure"
      (by decide)).1,
   (set_cookie_passthrough defaultFrontendOrigin (some "http://localhost:3000")
      [("x-upstream", "1")] sampleRespHeaders
      "session_id=abc123; HttpOnly; Max-Age=86400; Path=/; SameSite=lax; Secure"
      (by decide)).2⟩

/-- C7: a service token outside the closed enumeration fails path
validation before the handler runs — no backend is contacted and the
token is never defaulted to a backend URL (the outcome is `rejected`,
carrying no URL). -/
theorem unknown_service_rejected (env : ServiceType → Option String)
    (s path : String) (h : s ∉ serviceTypeStrings) :
    parseService s = none ∧ gatewayDispatch env s path = .rejected 422 := by
  have hp := parseService_eq_none h
  refine ⟨hp, ?_⟩
  unfold gatewayDispatch
  rw [hp]

/-- Witness for C7 at the unknown token `payments`. -/
theorem unknown_service_rejected_witness :
    "payments" ∉ serviceTypeStrings ∧
    parseService "payments" = none ∧
    gatewayDispatch (fun _ => none) "payments" "upload" = .rejected 422 :=
  ⟨by decide,
   (unknown_service_rejected (fun _ => none) "payments" "upload" (by decide)).1,
   (unknown_service_rejected (fun _ => none) "payments" "upload" (by decide)).2⟩

/-- C8 counterexample: on the generic (non-auth) branch a timeout is
answered 500 `"Gateway error: ..."`, not 504, and a connection failure is
answered 500, not 503 — the httpx exceptions re-raised by
`ServiceDiscovery.request` fall into `proxy_post`'s generic
`except Exception` clause. -/
theorem generic_timeout_mapped_to_500 :
    proxyPostReply .CBAM (.timeout "ReadTimeout")
      = .jsonError 500 "Gateway error: ReadTimeout" ∧
    ¬ (proxyPostReply .CBAM (.timeout "ReadTimeout")).statusCode = 504 ∧
    proxyPostReply .LCA (.connectError "refused")
      = .jsonError 500 "Gateway error: refused" ∧
    ¬ (proxyPostReply .LCA (.connectError "refused")).statusCode = 503 := by
  decide

/-- C8 (amended): every outbound call is bounded by a 30-second timeout
and every outbound failure is returned as a structured JSON detail body —
never an unhandled fault; requests to the auth service map timeout to 504,
connection failure to 503 and any other failure to 500, while the other
services (cbam, chatbot, lca, report) map timeout and connection failures
to 500; a successful backend response is passed through for every
service. -/
theorem outbound_error_mapping (m b : String) (st0 : Nat) :
    authBranchTimeoutSeconds = 30 ∧ serviceDiscoveryTimeoutSeconds = 30 ∧
    proxyPostReply .AUTH (.timeout m)
      = .jsonError 504 ("Auth Service 요청 타임아웃: " ++ m) ∧
    proxyPostReply .AUTH (.connectError m)
      = .jsonError 503 ("Auth Service 연결 실패: " ++ m) ∧
    proxyPostReply .AUTH (.otherError m)
      = .jsonError 500 ("Auth Service 요청 실패: " ++ m) ∧
    proxyPostReply .CBAM (.timeout m) = .jsonError 500 ("Gateway error: " ++ m) ∧
    proxyPostReply .CHATBOT (.timeout m) = .jsonError 500 ("Gateway error: " ++ m) ∧
    proxyPostReply .LCA (.timeout m) = .jsonError 500 ("Gateway error: " ++ m) ∧
    proxyPostReply .REPORT (.timeout m) = .jsonError 500 ("Gateway error: " ++ m) ∧
    proxyPostReply .CBAM (.connectError m) = .jsonError 500 ("Gateway error: " ++ m) ∧
    proxyPostReply .CHATBOT (.connectError m) = .jsonError 500 ("Gateway error: " ++ m) ∧
    proxyPostReply .LCA (.connectError m) = .jsonError 500 ("Gateway error: " ++ m) ∧
    proxyPostReply .REPORT (.connectError m) = .jsonError 500 ("Gateway error: " ++ m) ∧
    (∀ st : ServiceType, proxyPostReply st (.ok st0 b) = .passthrough st0 b) := by
  refine ⟨rfl, rfl, rfl, rfl, rfl, rfl, rfl, rfl, rfl, rfl, rfl, rfl, rfl, ?_⟩
  intro st
  cases st <;> rfl

end Greensteel





